import Mathlib

/-!
Shallow embedding of the style-analysis core of src/si.py from the
scrittura_intelligente repository.  The pure functions of the source are
translated directly.  Every call into the external NLP toolkit
(word_tokenize, sent_tokenize, pos_tag, flesch_reading_ease) is modelled
by an Env record holding the Option-valued result of that call: some v
means the call returned v, none means it raised and the except branch of
the source runs.  Character classes follow the ASCII reading of the
regexes in the source.  Real-valued metrics are modelled over the
rationals.
-/

namespace SI

/-- A word character in the sense of the regex word class (ASCII reading):
letters, digits and the underscore. -/
def isWordChar (c : Char) : Bool := c.isAlphanum || c = '_'

/-- Maximal runs of word characters in a character list; acc holds the
current run reversed. -/
def wordRuns : List Char → List Char → List (List Char)
  | [], acc => if acc.isEmpty then [] else [acc.reverse]
  | c :: cs, acc =>
      if isWordChar c then wordRuns cs (c :: acc)
      else if acc.isEmpty then wordRuns cs []
      else acc.reverse :: wordRuns cs []

/-- Fallback tokenisation of the source: re.findall of word-character runs. -/
def findWords (s : String) : List String :=
  (wordRuns s.data []).map fun cs => String.mk cs

/-- Sentence-ending punctuation used by the fallback of conta_frasi. -/
def isSentSep (c : Char) : Bool := c = '.' || c = '!' || c = '?'

/-- Split a character list at every sentence separator, keeping empty
segments exactly as re.split does. -/
def splitRuns : List Char → List Char → List (List Char)
  | [], acc => [acc.reverse]
  | c :: cs, acc =>
      if isSentSep c then acc.reverse :: splitRuns cs []
      else splitRuns cs (c :: acc)

/-- Fallback sentence count of the source: segments between punctuation
that still contain a non-whitespace character. -/
def conta_frasi_fallback (s : String) : Nat :=
  ((splitRuns s.data []).filter fun seg => seg.any fun c => !c.isWhitespace).length

/-- The re.sub of the source that removes every character that is neither
a word character nor whitespace. -/
def removePunct (s : String) : String :=
  String.mk (s.data.filter fun c => isWordChar c || c.isWhitespace)

/-- Results of the external NLP calls made during one analysis.  Each
field is the value the call would return; none models the call raising,
which sends the source into its except branch. -/
structure Env where
  tokTesto : Option (List String)
  tokLower : Option (List String)
  sentCount : Option Nat
  posTagged : Option (List (String × String))
  readValue : Option ℚ
deriving DecidableEq, Repr

/-- Environment in which every external call fails, so every fallback
branch of the source runs. -/
def fallbackEnv : Env := ⟨none, none, none, none, none⟩

/-- Lower-casing of a string, character by character, modelling the
Python lower method on ASCII text. -/
def lowerString (s : String) : String :=
  String.mk (s.data.map Char.toLower)

/-- calcola_diversita_lessicale of the source: type/token ratio of the
lower-cased text, 0 when there are no words. -/
def calcola_diversita_lessicale (env : Env) (testo : String) : ℚ :=
  let parole := match env.tokLower with
    | some ws => ws
    | none => findWords (lowerString testo)
  if parole.length = 0 then 0
  else (parole.dedup.length : ℚ) / (parole.length : ℚ)

/-- tokenizza_testo of the source with its regex fallback. -/
def tokenizza_testo (tok : Option (List String)) (testo : String) : List String :=
  match tok with
  | some ws => ws
  | none => findWords testo

/-- conta_frasi of the source with its punctuation-count fallback. -/
def conta_frasi (sc : Option Nat) (testo : String) : Nat :=
  match sc with
  | some n => n
  | none => conta_frasi_fallback testo

/-- Adjective tags recognised by analizza_pos. -/
def tagAgg : List String := ["JJ", "JJR", "JJS"]

/-- Adverb tags recognised by analizza_pos. -/
def tagAvv : List String := ["RB", "RBR", "RBS"]

/-- Verb tags recognised by analizza_pos. -/
def tagVrb : List String := ["VB", "VBD", "VBG", "VBN", "VBP", "VBZ"]

/-- Noun tags recognised by analizza_pos. -/
def tagSos : List String := ["NN", "NNS", "NNP", "NNPS"]

/-- analizza_pos of the source: counts per part of speech from the tagger
result when the tagger succeeds, else fixed integer fractions of the word
count.  The tuple is (adjectives, adverbs, verbs, nouns). -/
def analizza_pos (tagRes : Option (List (String × String))) (parole : List String) :
    Nat × Nat × Nat × Nat :=
  match tagRes with
  | some tagged =>
      ((tagged.filter fun wp => decide (wp.2 ∈ tagAgg)).length,
       (tagged.filter fun wp => decide (wp.2 ∈ tagAvv)).length,
       (tagged.filter fun wp => decide (wp.2 ∈ tagVrb)).length,
       (tagged.filter fun wp => decide (wp.2 ∈ tagSos)).length)
  | none =>
      (parole.length / 10, parole.length / 20, parole.length / 5, parole.length / 3)

/-- Positive tone lexicon of the source. -/
def parole_pos_lista : List String :=
  ["buono", "bello", "fantastico", "eccellente", "meraviglioso",
   "positivo", "felice", "gioia", "bene", "perfetto"]

/-- Negative tone lexicon of the source. -/
def parole_neg_lista : List String :=
  ["cattivo", "brutto", "terribile", "orribile", "pessimo",
   "negativo", "triste", "dolore", "male", "difettoso"]

/-- The metrics record returned by analizza_stile. -/
structure Analisi where
  parole_totali : Nat
  frasi_totali : Nat
  lunghezza_media_frasi : ℚ
  vocab_unico : Nat
  ricchezza_lessicale : ℚ
  aggettivi : Nat
  avverbi : Nat
  verbi : Nat
  sostantivi : Nat
  leggibilita : ℚ
  complessita_sintattica : ℚ
  tono_positivo : ℚ
  tono_negativo : ℚ
deriving DecidableEq, Repr

/-- The token list used inside analizza_stile: word_tokenize of the
punctuation-stripped text, with the regex fallback. -/
def parole_di (env : Env) (testo : String) : List String :=
  tokenizza_testo env.tokTesto (removePunct testo)

/-- analizza_stile translated line by line from src/si.py. -/
def analizza_stile (env : Env) (testo : String) : Analisi :=
  let parole := parole_di env testo
  let frasi_totali := conta_frasi env.sentCount testo
  let parole_totali := parole.length
  let lunghezza_media_frasi : ℚ :=
    if frasi_totali > 0 then (parole_totali : ℚ) / (frasi_totali : ℚ) else 0
  let vocab_unico := parole.dedup.length
  let ricchezza_lessicale := calcola_diversita_lessicale env testo
  let pos := analizza_pos env.posTagged parole
  let leggibilita : ℚ := match env.readValue with | some v => v | none => 60
  let complessita_sintattica := lunghezza_media_frasi
  let parole_positive := (parole.filter fun w => decide (lowerString w ∈ parole_pos_lista)).length
  let parole_negative := (parole.filter fun w => decide (lowerString w ∈ parole_neg_lista)).length
  let tono_positivo : ℚ :=
    if parole_totali > 0 then (parole_positive : ℚ) / (parole.length : ℚ) else 0
  let tono_negativo : ℚ :=
    if parole_totali > 0 then (parole_negative : ℚ) / (parole.length : ℚ) else 0
  { parole_totali := parole_totali
    frasi_totali := frasi_totali
    lunghezza_media_frasi := lunghezza_media_frasi
    vocab_unico := vocab_unico
    ricchezza_lessicale := ricchezza_lessicale
    aggettivi := pos.1
    avverbi := pos.2.1
    verbi := pos.2.2.1
    sostantivi := pos.2.2.2
    leggibilita := leggibilita
    complessita_sintattica := complessita_sintattica
    tono_positivo := tono_positivo
    tono_negativo := tono_negativo }

/-- The four style labels, in the insertion order of the punteggi dict. -/
inductive Stile where
  | narrativo
  | descrittivo
  | argomentativo
  | espositivo
deriving DecidableEq, Repr

/-- Enumeration position of a style label in the dict insertion order. -/
def Stile.idx : Stile → Nat
  | .narrativo => 0
  | .descrittivo => 1
  | .argomentativo => 2
  | .espositivo => 3

/-- The four linear scores built by determina_stile_dominante.  The
narrative and descriptive additions are guarded by parole_totali being
positive; the argumentative and expository ones are not. -/
def punteggio (a : Analisi) : Stile → ℚ
  | .narrativo =>
      if a.parole_totali > 0 then
        (a.verbi : ℚ) / (a.parole_totali : ℚ) +
          (if 15 ≤ a.lunghezza_media_frasi ∧ a.lunghezza_media_frasi ≤ 25 then 1/2 else 0)
      else 0
  | .descrittivo =>
      if a.parole_totali > 0 then (a.aggettivi : ℚ) / (a.parole_totali : ℚ) else 0
  | .argomentativo =>
      a.ricchezza_lessicale + (if a.lunghezza_media_frasi > 20 then 1/2 else 0)
  | .espositivo => 1 - |70 - a.leggibilita| / 70

/-- Python max over the score table: keep the current key unless a later
key has a strictly greater value, so the first maximum wins. -/
def maxByScore : Stile × ℚ → List (Stile × ℚ) → Stile × ℚ
  | best, [] => best
  | best, x :: xs => maxByScore (if best.2 < x.2 then x else best) xs

/-- determina_stile_dominante from src/si.py. -/
def determina_stile_dominante (a : Analisi) : Stile :=
  (maxByScore (Stile.narrativo, punteggio a .narrativo)
    [(Stile.descrittivo, punteggio a .descrittivo),
     (Stile.argomentativo, punteggio a .argomentativo),
     (Stile.espositivo, punteggio a .espositivo)]).1

/-- Readability fallback formula exactly as the spec words it, a clamp to
the interval from 0 to 100 of a linear form in average sentence length and
average word length.  Stated for comparison only: the source is the
authority and its fallback is the constant 60. -/
def specFallbackReadability (asl awl : ℚ) : ℚ :=
  max 0 (min 100 (100 - 3/2 * asl - 8 * awl))

/-- Average word length of a token list.  The spec formula needs it; the
source never computes it. -/
def avgWordLength (ws : List String) : ℚ :=
  if ws.length = 0 then 0 else ((ws.map String.length).sum : ℚ) / (ws.length : ℚ)

/-! Projection lemmas: each field of the record built by analizza_stile,
read back as the expression the source assigns to it.  All hold by
definitional unfolding. -/

theorem analizza_stile_parole_totali (env : Env) (testo : String) :
    (analizza_stile env testo).parole_totali = (parole_di env testo).length := rfl

theorem analizza_stile_frasi_totali (env : Env) (testo : String) :
    (analizza_stile env testo).frasi_totali = conta_frasi env.sentCount testo := rfl

theorem analizza_stile_lunghezza_media (env : Env) (testo : String) :
    (analizza_stile env testo).lunghezza_media_frasi =
      if conta_frasi env.sentCount testo > 0 then
        ((parole_di env testo).length : ℚ) / (conta_frasi env.sentCount testo : ℚ)
      else 0 := rfl

theorem analizza_stile_vocab_unico (env : Env) (testo : String) :
    (analizza_stile env testo).vocab_unico = (parole_di env testo).dedup.length := rfl

theorem analizza_stile_ricchezza (env : Env) (testo : String) :
    (analizza_stile env testo).ricchezza_lessicale =
      calcola_diversita_lessicale env testo := rfl

theorem analizza_stile_leggibilita (env : Env) (testo : String) :
    (analizza_stile env testo).leggibilita =
      match env.readValue with | some v => v | none => 60 := rfl

theorem analizza_stile_tono_positivo (env : Env) (testo : String) :
    (analizza_stile env testo).tono_positivo =
      if (parole_di env testo).length > 0 then
        (((parole_di env testo).filter fun w =>
            decide (lowerString w ∈ parole_pos_lista)).length : ℚ) /
          ((parole_di env testo).length : ℚ)
      else 0 := rfl

theorem analizza_stile_tono_negativo (env : Env) (testo : String) :
    (analizza_stile env testo).tono_negativo =
      if (parole_di env testo).length > 0 then
        (((parole_di env testo).filter fun w =>
            decide (lowerString w ∈ parole_neg_lista)).length : ℚ) /
          ((parole_di env testo).length : ℚ)
      else 0 := rfl

/-- C9: on the fallback branch of the POS analysis, the counts returned
for a word list of length n are exactly n/10, n/20, n/5 and n/3 under
integer division, for adjectives, adverbs, verbs and nouns respectively. -/
theorem c9_pos_fallback_fractions (parole : List String) :
    analizza_pos none parole =
      (parole.length / 10, parole.length / 20, parole.length / 5, parole.length / 3) := rfl

/-- C8: the average sentence length of the returned record is total words
over total sentences when there is at least one sentence, and 0 otherwise. -/
theorem c8_avg_sentence_length (env : Env) (testo : String) :
    (analizza_stile env testo).lunghezza_media_frasi =
      if (analizza_stile env testo).frasi_totali > 0 then
        ((analizza_stile env testo).parole_totali : ℚ) /
          ((analizza_stile env testo).frasi_totali : ℚ)
      else 0 := rfl

/-- C6: the analysis and the dominant-style selection are deterministic
pure functions: on identical input text (and identical outcomes of the
external toolkit calls) they return identical metrics and identical label. -/
theorem c6_deterministic (env : Env) (t1 t2 : String) (h : t1 = t2) :
    analizza_stile env t1 = analizza_stile env t2 ∧
      determina_stile_dominante (analizza_stile env t1) =
        determina_stile_dominante (analizza_stile env t2) := by
  subst h
  exact ⟨rfl, rfl⟩

/-- Witness for C6 at a concrete input. -/
theorem c6_deterministic_witness :
    ("Ciao ciao" : String) = "Ciao ciao" ∧
      (analizza_stile fallbackEnv "Ciao ciao" = analizza_stile fallbackEnv "Ciao ciao" ∧
        determina_stile_dominante (analizza_stile fallbackEnv "Ciao ciao") =
          determina_stile_dominante (analizza_stile fallbackEnv "Ciao ciao")) :=
  ⟨rfl, c6_deterministic fallbackEnv "Ciao ciao" "Ciao ciao" rfl⟩

/-- C5: on the empty string, with the external tokenizer and sentence
splitter failing over to the fallbacks and the tagger and readability
calls arbitrary, the analysis returns total words 0, total sentences 0,
lexical richness 0, and the three ratio fields all 0; being a total
function, it raises no error. -/
theorem c5_empty_input_defaults (p : Option (List (String × String))) (r : Option ℚ) :
    (analizza_stile ⟨none, none, none, p, r⟩ "").parole_totali = 0 ∧
    (analizza_stile ⟨none, none, none, p, r⟩ "").frasi_totali = 0 ∧
    (analizza_stile ⟨none, none, none, p, r⟩ "").ricchezza_lessicale = 0 ∧
    (analizza_stile ⟨none, none, none, p, r⟩ "").lunghezza_media_frasi = 0 ∧
    (analizza_stile ⟨none, none, none, p, r⟩ "").tono_positivo = 0 ∧
    (analizza_stile ⟨none, none, none, p, r⟩ "").tono_negativo = 0 :=
  ⟨rfl, rfl, rfl, rfl, rfl, rfl⟩

/-- Each part-of-speech tag string belongs to at most one of the four tag
classes tested by analizza_pos, so the four indicator values sum to at
most one. -/
theorem tag_indicator_le_one (p : String) :
    ((if p ∈ tagAgg then 1 else 0) + (if p ∈ tagAvv then 1 else 0) +
      (if p ∈ tagVrb then 1 else 0) + (if p ∈ tagSos then 1 else 0) : Nat) ≤ 1 := by
  by_cases h1 : p ∈ tagAgg <;> by_cases h2 : p ∈ tagAvv <;>
      by_cases h3 : p ∈ tagVrb <;> by_cases h4 : p ∈ tagSos <;>
      simp [h1, h2, h3, h4] <;>
      first
        | exact absurd h2 ((by decide : ∀ x ∈ tagAgg, x ∉ tagAvv) p h1)
        | exact absurd h3 ((by decide : ∀ x ∈ tagAgg, x ∉ tagVrb) p h1)
        | exact absurd h4 ((by decide : ∀ x ∈ tagAgg, x ∉ tagSos) p h1)
        | exact absurd h3 ((by decide : ∀ x ∈ tagAvv, x ∉ tagVrb) p h2)
        | exact absurd h4 ((by decide : ∀ x ∈ tagAvv, x ∉ tagSos) p h2)
        | exact absurd h4 ((by decide : ∀ x ∈ tagVrb, x ∉ tagSos) p h3)

/-- The four tag-class filters of analizza_pos select pairwise disjoint
sublists, so their lengths sum to at most the length of the tagged list. -/
theorem quattro_filtri_le (tagged : List (String × String)) :
    (tagged.filter fun wp => decide (wp.2 ∈ tagAgg)).length +
      (tagged.filter fun wp => decide (wp.2 ∈ tagAvv)).length +
      (tagged.filter fun wp => decide (wp.2 ∈ tagVrb)).length +
      (tagged.filter fun wp => decide (wp.2 ∈ tagSos)).length ≤ tagged.length := by
  induction tagged with
  | nil => simp
  | cons wp rest ih =>
      have hone := tag_indicator_le_one wp.2
      simp only [List.filter_cons, List.length_cons]
      by_cases h1 : wp.2 ∈ tagAgg <;> by_cases h2 : wp.2 ∈ tagAvv <;>
        by_cases h3 : wp.2 ∈ tagVrb <;> by_cases h4 : wp.2 ∈ tagSos <;>
        simp_all <;> omega

/-- C10: on both the tagger branch and the fallback branch of the POS
analysis, the four returned counts sum to at most the number of words, so
the derived count of remaining words is never negative.  On the tagger
branch the hypothesis records that the external tagger returns exactly one
pair per input word. -/
theorem c10_pos_counts_bounded (parole : List String)
    (tagRes : Option (List (String × String)))
    (hlen : ∀ tg, tagRes = some tg → tg.length = parole.length) :
    (analizza_pos tagRes parole).1 + (analizza_pos tagRes parole).2.1 +
      (analizza_pos tagRes parole).2.2.1 + (analizza_pos tagRes parole).2.2.2 ≤
      parole.length := by
  cases tagRes with
  | none =>
      simp only [analizza_pos]
      omega
  | some tg =>
      have h := quattro_filtri_le tg
      have hl := hlen tg rfl
      simp only [analizza_pos]
      omega

/-- Witness for C10 at a concrete tagged word list. -/
theorem c10_pos_counts_bounded_witness :
    (∀ tg : List (String × String),
        (some [("cane", "NN"), ("corre", "VB")] : Option (List (String × String))) = some tg →
          tg.length = (["cane", "corre"] : List String).length) ∧
      (analizza_pos (some [("cane", "NN"), ("corre", "VB")]) ["cane", "corre"]).1 +
        (analizza_pos (some [("cane", "NN"), ("corre", "VB")]) ["cane", "corre"]).2.1 +
        (analizza_pos (some [("cane", "NN"), ("corre", "VB")]) ["cane", "corre"]).2.2.1 +
        (analizza_pos (some [("cane", "NN"), ("corre", "VB")]) ["cane", "corre"]).2.2.2 ≤
        (["cane", "corre"] : List String).length :=
  ⟨fun tg h => by cases h; rfl,
   c10_pos_counts_bounded ["cane", "corre"] (some [("cane", "NN"), ("corre", "VB")])
     (fun tg h => by cases h; rfl)⟩

/-- C7: for inputs with at least one token, each tone ratio is the count
of tokens whose lower-cased form exactly matches the fixed positive,
respectively negative, lexicon, divided by the total word count. -/
theorem c7_tone_fractions (env : Env) (testo : String)
    (h : 0 < (parole_di env testo).length) :
    (analizza_stile env testo).tono_positivo =
      (((parole_di env testo).filter fun w =>
          decide (lowerString w ∈ parole_pos_lista)).length : ℚ) /
        ((parole_di env testo).length : ℚ) ∧
    (analizza_stile env testo).tono_negativo =
      (((parole_di env testo).filter fun w =>
          decide (lowerString w ∈ parole_neg_lista)).length : ℚ) /
        ((parole_di env testo).length : ℚ) := by
  rw [analizza_stile_tono_positivo, analizza_stile_tono_negativo]
  exact ⟨if_pos h, if_pos h⟩

/-- Witness for C7: ten fallback tokens of which exactly one, bello, is in
the positive lexicon give tone_positive one tenth. -/
theorem c7_tone_fractions_witness :
    0 < (parole_di fallbackEnv "bello uno due tre quattro cinque sei sette otto nove").length ∧
      ((analizza_stile fallbackEnv
          "bello uno due tre quattro cinque sei sette otto nove").tono_positivo =
        (((parole_di fallbackEnv
            "bello uno due tre quattro cinque sei sette otto nove").filter fun w =>
              decide (lowerString w ∈ parole_pos_lista)).length : ℚ) /
          ((parole_di fallbackEnv
            "bello uno due tre quattro cinque sei sette otto nove").length : ℚ) ∧
        (analizza_stile fallbackEnv
          "bello uno due tre quattro cinque sei sette otto nove").tono_negativo =
        (((parole_di fallbackEnv
            "bello uno due tre quattro cinque sei sette otto nove").filter fun w =>
              decide (lowerString w ∈ parole_neg_lista)).length : ℚ) /
          ((parole_di fallbackEnv
            "bello uno due tre quattro cinque sei sette otto nove").length : ℚ)) ∧
      (analizza_stile fallbackEnv
        "bello uno due tre quattro cinque sei sette otto nove").tono_positivo = 1 / 10 := by
  refine ⟨by decide,
    c7_tone_fractions fallbackEnv
      "bello uno due tre quattro cinque sei sette otto nove" (by decide), ?_⟩
  rw [(c7_tone_fractions fallbackEnv
    "bello uno due tre quattro cinque sei sette otto nove" (by decide)).1]
  have e1 : ((parole_di fallbackEnv
      "bello uno due tre quattro cinque sei sette otto nove").filter fun w =>
        decide (lowerString w ∈ parole_pos_lista)).length = 1 := by decide
  have e2 : (parole_di fallbackEnv
      "bello uno due tre quattro cinque sei sette otto nove").length = 10 := by decide
  rw [e1, e2]
  norm_num

/-- C1 (amended): when the external readability call fails, the
readability of the record is the constant 60, which lies between 0 and
100. -/
theorem c1_fallback_readability_constant (env : Env) (testo : String)
    (h : env.readValue = none) :
    (analizza_stile env testo).leggibilita = 60 ∧
      (0 : ℚ) ≤ (analizza_stile env testo).leggibilita ∧
      (analizza_stile env testo).leggibilita ≤ 100 := by
  have e : (analizza_stile env testo).leggibilita = 60 := by
    rw [analizza_stile_leggibilita, h]
  rw [e]
  norm_num

/-- Witness for C1 at a concrete input. -/
theorem c1_fallback_readability_constant_witness :
    fallbackEnv.readValue = none ∧
      ((analizza_stile fallbackEnv "hi").leggibilita = 60 ∧
        (0 : ℚ) ≤ (analizza_stile fallbackEnv "hi").leggibilita ∧
        (analizza_stile fallbackEnv "hi").leggibilita ≤ 100) :=
  ⟨rfl, c1_fallback_readability_constant fallbackEnv "hi" rfl⟩

/-- C1 counterexample: on the input hi with every external call failing,
the source returns readability 60, while the clamp formula of the claim,
evaluated at the average sentence length 1 and average word length 2 of
that input, yields 165/2; the fallback readability of the source is
therefore not the clamp formula. -/
theorem c1_counterexample :
    (analizza_stile fallbackEnv "hi").leggibilita ≠
      specFallbackReadability (analizza_stile fallbackEnv "hi").lunghezza_media_frasi
        (avgWordLength (parole_di fallbackEnv "hi")) := by
  have e1 : (analizza_stile fallbackEnv "hi").leggibilita = 60 := rfl
  have ec : conta_frasi fallbackEnv.sentCount "hi" = 1 := by decide
  have ep : (parole_di fallbackEnv "hi").length = 1 := by decide
  have e2 : (analizza_stile fallbackEnv "hi").lunghezza_media_frasi = 1 := by
    rw [analizza_stile_lunghezza_media, ec, ep]
    norm_num
  have hw : parole_di fallbackEnv "hi" = ["hi"] := by decide
  have hx : ("hi" : String).length = 2 := by decide
  have e3 : avgWordLength (parole_di fallbackEnv "hi") = 2 := by
    rw [hw]
    norm_num [avgWordLength, hx]
  rw [e1, e2, e3]
  unfold specFallbackReadability
  norm_num [max_def, min_def]

/-- The fallback branch of calcola_diversita_lessicale in closed form:
type/token ratio of the lower-cased regex tokenization. -/
theorem calcola_fallback_eq (env : Env) (testo : String)
    (h : env.tokLower = none) :
    calcola_diversita_lessicale env testo =
      if (findWords (lowerString testo)).length = 0 then 0
      else ((findWords (lowerString testo)).dedup.length : ℚ) /
        ((findWords (lowerString testo)).length : ℚ) := by
  unfold calcola_diversita_lessicale
  rw [h]

/-- C2 (amended): the lexical richness of the record is the type/token
ratio of the separately lower-cased tokenization of the raw text, 0 when
that tokenization is empty; it need not equal unique_vocab over
total_words of the same record, whose unique count is case-sensitive. -/
theorem c2_lexical_richness_lowercase (env : Env) (testo : String)
    (h : env.tokLower = none) :
    (analizza_stile env testo).ricchezza_lessicale =
      if (findWords (lowerString testo)).length = 0 then 0
      else ((findWords (lowerString testo)).dedup.length : ℚ) /
        ((findWords (lowerString testo)).length : ℚ) := by
  rw [analizza_stile_ricchezza]
  exact calcola_fallback_eq env testo h

/-- Witness for C2 at a concrete input. -/
theorem c2_lexical_richness_lowercase_witness :
    fallbackEnv.tokLower = none ∧
      (analizza_stile fallbackEnv "Ciao ciao").ricchezza_lessicale =
        (if (findWords (lowerString "Ciao ciao")).length = 0 then 0
         else ((findWords (lowerString "Ciao ciao")).dedup.length : ℚ) /
           ((findWords (lowerString "Ciao ciao")).length : ℚ)) :=
  ⟨rfl, c2_lexical_richness_lowercase fallbackEnv "Ciao ciao" rfl⟩

/-- C2 counterexample: on the input Ciao ciao with the fallback
tokenizers, the record has lexical richness 1/2 but unique vocabulary 2
over 2 total words, so the quotient of the record fields is 1 and differs
from the lexical richness field. -/
theorem c2_counterexample :
    (analizza_stile fallbackEnv "Ciao ciao").ricchezza_lessicale ≠
      ((analizza_stile fallbackEnv "Ciao ciao").vocab_unico : ℚ) /
        ((analizza_stile fallbackEnv "Ciao ciao").parole_totali : ℚ) := by
  have hlow : findWords (lowerString "Ciao ciao") = ["ciao", "ciao"] := by decide
  have hded : (["ciao", "ciao"] : List String).dedup.length = 1 := by decide
  have e1 : (analizza_stile fallbackEnv "Ciao ciao").ricchezza_lessicale = 1 / 2 := by
    rw [analizza_stile_ricchezza, calcola_fallback_eq fallbackEnv "Ciao ciao" rfl, hlow]
    simp [hded]
  have e2 : (analizza_stile fallbackEnv "Ciao ciao").vocab_unico = 2 := by decide
  have e3 : (analizza_stile fallbackEnv "Ciao ciao").parole_totali = 2 := by decide
  rw [e1, e2, e3]
  norm_num

/-- C4: for any metrics record with a positive word count, the four style
scores are exactly the four formulas of the claim: verbs over words plus
the sentence-length bonus, adjectives over words, lexical richness plus
the long-sentence bonus, and one minus the scaled distance of readability
from 70. -/
theorem c4_score_formulas (a : Analisi) (h : 0 < a.parole_totali) :
    punteggio a .narrativo =
      (a.verbi : ℚ) / (a.parole_totali : ℚ) +
        (if 15 ≤ a.lunghezza_media_frasi ∧ a.lunghezza_media_frasi ≤ 25 then 1/2 else 0) ∧
    punteggio a .descrittivo = (a.aggettivi : ℚ) / (a.parole_totali : ℚ) ∧
    punteggio a .argomentativo =
      a.ricchezza_lessicale + (if a.lunghezza_media_frasi > 20 then 1/2 else 0) ∧
    punteggio a .espositivo = 1 - |70 - a.leggibilita| / 70 :=
  ⟨if_pos h, if_pos h, rfl, rfl⟩

/-- Concrete metrics record used to witness C4. -/
def aC4ex : Analisi :=
  { parole_totali := 10
    frasi_totali := 2
    lunghezza_media_frasi := 5
    vocab_unico := 8
    ricchezza_lessicale := 4/5
    aggettivi := 1
    avverbi := 0
    verbi := 2
    sostantivi := 3
    leggibilita := 60
    complessita_sintattica := 5
    tono_positivo := 0
    tono_negativo := 0 }

/-- Witness for C4 at a concrete metrics record. -/
theorem c4_score_formulas_witness :
    0 < aC4ex.parole_totali ∧
      (punteggio aC4ex .narrativo =
        (aC4ex.verbi : ℚ) / (aC4ex.parole_totali : ℚ) +
          (if 15 ≤ aC4ex.lunghezza_media_frasi ∧ aC4ex.lunghezza_media_frasi ≤ 25
            then 1/2 else 0) ∧
      punteggio aC4ex .descrittivo = (aC4ex.aggettivi : ℚ) / (aC4ex.parole_totali : ℚ) ∧
      punteggio aC4ex .argomentativo =
        aC4ex.ricchezza_lessicale +
          (if aC4ex.lunghezza_media_frasi > 20 then 1/2 else 0) ∧
      punteggio aC4ex .espositivo = 1 - |70 - aC4ex.leggibilita| / 70) :=
  ⟨by decide, c4_score_formulas aC4ex (by decide)⟩

/-- Unfolding of the Python max over the four ordered scores into nested
conditionals; a later entry replaces the current best only when strictly
greater, so the first maximum wins. -/
theorem maxByScore4 (q1 q2 q3 q4 : ℚ) :
    maxByScore (Stile.narrativo, q1)
      [(Stile.descrittivo, q2), (Stile.argomentativo, q3), (Stile.espositivo, q4)] =
      if q1 < q2 then
        if q2 < q3 then
          if q3 < q4 then (Stile.espositivo, q4) else (Stile.argomentativo, q3)
        else
          if q2 < q4 then (Stile.espositivo, q4) else (Stile.descrittivo, q2)
      else
        if q1 < q3 then
          if q3 < q4 then (Stile.espositivo, q4) else (Stile.argomentativo, q3)
        else
          if q1 < q4 then (Stile.espositivo, q4) else (Stile.narrativo, q1) := by
  simp only [maxByScore]
  dsimp only
  split_ifs <;> simp_all

/-- C3: the dominant style has maximal score among the four, and every
label strictly earlier in the enumeration order narrative, descriptive,
argumentative, expository has a strictly smaller score; together these say
that on ties the first maximal label in enumeration order is returned. -/
theorem c3_dominant_first_max (a : Analisi) :
    (∀ s : Stile, punteggio a s ≤ punteggio a (determina_stile_dominante a)) ∧
      (∀ s : Stile, s.idx < (determina_stile_dominante a).idx →
        punteggio a s < punteggio a (determina_stile_dominante a)) := by
  have hd : determina_stile_dominante a =
      (maxByScore (Stile.narrativo, punteggio a Stile.narrativo)
        [(Stile.descrittivo, punteggio a Stile.descrittivo),
         (Stile.argomentativo, punteggio a Stile.argomentativo),
         (Stile.espositivo, punteggio a Stile.espositivo)]).1 := rfl
  rw [hd, maxByScore4]
  split_ifs <;> dsimp only <;> constructor <;> intro s <;> cases s <;>
    (try simp only [Stile.idx]) <;>
    first
      | linarith
      | (intro hidx; linarith)

/-- Concrete metrics record used to witness C3: the argumentative and
expository scores tie at 1, and the argumentative label, earlier in
enumeration order, is returned. -/
def aC3ex : Analisi :=
  { parole_totali := 0
    frasi_totali := 0
    lunghezza_media_frasi := 0
    vocab_unico := 0
    ricchezza_lessicale := 1
    aggettivi := 0
    avverbi := 0
    verbi := 0
    sostantivi := 0
    leggibilita := 70
    complessita_sintattica := 0
    tono_positivo := 0
    tono_negativo := 0 }

/-- Witness for C3 at a concrete metrics record with a tie. -/
theorem c3_dominant_first_max_witness :
    punteggio aC3ex Stile.espositivo ≤ punteggio aC3ex (determina_stile_dominante aC3ex) ∧
      Stile.idx Stile.narrativo < Stile.idx (determina_stile_dominante aC3ex) ∧
      punteggio aC3ex Stile.narrativo < punteggio aC3ex (determina_stile_dominante aC3ex) := by
  have p1 : punteggio aC3ex Stile.narrativo = 0 := by norm_num [punteggio, aC3ex]
  have p2 : punteggio aC3ex Stile.descrittivo = 0 := by norm_num [punteggio, aC3ex]
  have p3 : punteggio aC3ex Stile.argomentativo = 1 := by norm_num [punteggio, aC3ex]
  have p4 : punteggio aC3ex Stile.espositivo = 1 := by norm_num [punteggio, aC3ex]
  have hd : determina_stile_dominante aC3ex = Stile.argomentativo := by
    have hd0 : determina_stile_dominante aC3ex =
        (maxByScore (Stile.narrativo, punteggio aC3ex Stile.narrativo)
          [(Stile.descrittivo, punteggio aC3ex Stile.descrittivo),
           (Stile.argomentativo, punteggio aC3ex Stile.argomentativo),
           (Stile.espositivo, punteggio aC3ex Stile.espositivo)]).1 := rfl
    rw [hd0, p1, p2, p3, p4, maxByScore4]
    norm_num
  have hidx : Stile.idx Stile.narrativo < Stile.idx (determina_stile_dominante aC3ex) := by
    rw [hd]
    decide
  exact ⟨(c3_dominant_first_max aC3ex).1 Stile.espositivo, hidx,
    (c3_dominant_first_max aC3ex).2 Stile.narrativo hidx⟩

end SI
